import Mathlib

/-!
Verification development for the FTL gravity list/group resolution engine.

The definitions below are a shallow embedding of the source files
`src/database/gravity-db.c` and `external_blocked.c`.  External
capabilities (the SQLite storage engine, `inet_pton` validation and the
regex subsystem) are modelled as parameters; side effects on the
file-level static variables of `gravity-db.c` are made explicit by
threading a state record through each function.
-/

/- ------------------------------------------------------------------ -/
/- BlockPageDetector: `external_blocked.c`                            -/
/- ------------------------------------------------------------------ -/

/-- `maxIPs` in `external_blocked.c`: fixed capacity of each registry. -/
def maxIPs : Nat := 12

/-- The two fixed-capacity registries `blocked_IP_v4` and `blocked_IP_v6`.
Each is an array of `maxIPs` slots holding either a stored address string
or `none` (a `NULL` slot in C). -/
structure BlockedIPState where
  v4 : List (Option String)
  v6 : List (Option String)
deriving DecidableEq

/-- The slot-filling loop of `add_blocked_IP` (lines 83-93): walk the array,
replace the first `NULL` slot by the address; `none` when the array is full. -/
def fillFirstEmpty (addr : String) : List (Option String) → Option (List (Option String))
  | [] => none
  | none :: rest => some (some addr :: rest)
  | some a :: rest => (fillFirstEmpty addr rest).map (fun l => some a :: l)

/-- The scan loop of `is_blocked_IP` (lines 115-127): walk the array,
stop at the first `NULL` slot, return true on an exact string match. -/
def scan_registry (addr : String) : List (Option String) → Bool
  | [] => false
  | none :: _ => false
  | some a :: rest => a == addr || scan_registry addr rest

/-- `add_blocked_IP`.  The textual address validation performed by
`inet_pton` is an external capability, passed in as the predicates
`v4ok` and `v6ok`.  Returns the C function result together with the
updated registries. -/
def add_blocked_IP (v4ok v6ok : String → Bool) (st : BlockedIPState)
    (addr : String) (ftype : Nat) : Bool × BlockedIPState :=
  if ftype = 4 then
    if v4ok addr then
      match fillFirstEmpty addr st.v4 with
      | some l => (true, { st with v4 := l })
      | none => (false, st)
    else (false, st)
  else if ftype = 6 then
    if v6ok addr then
      match fillFirstEmpty addr st.v6 with
      | some l => (true, { st with v6 := l })
      | none => (false, st)
    else (false, st)
  else (false, st)

/-- `is_blocked_IP`.  The argument is `none` for a `NULL` input pointer.
The C switch assigns `list = blocked_IP_v6` in `case 6` but then falls
through into `default` (there is no `break`), which logs an invalid-type
message and returns false; consequently only `ftype = 4` ever reaches
the scan loop.  This fallthrough is reproduced faithfully here. -/
def is_blocked_IP (st : BlockedIPState) (addr : Option String) (ftype : Nat) : Bool :=
  match addr with
  | none => false
  | some a =>
    if ftype = 4 then scan_registry a st.v4
    else false

/-- The sequence of `add_blocked_IP` calls made by `init_blocked_IP`,
in source order. -/
def initCalls : List (String × Nat) :=
  [("0.0.0.0", 4), ("::", 6),
   ("146.112.61.104", 4), ("::ffff:146.112.61.104", 6),
   ("146.112.61.105", 4), ("::ffff:146.112.61.105", 6),
   ("146.112.61.106", 4), ("::ffff:146.112.61.106", 6),
   ("146.112.61.107", 4), ("::ffff:146.112.61.107", 6),
   ("146.112.61.108", 4), ("::ffff:146.112.61.108", 6),
   ("146.112.61.109", 4), ("::ffff:146.112.61.109", 6),
   ("146.112.61.110", 4), ("::ffff:146.112.61.110", 6)]

/-- `init_blocked_IP`: both registries start as `calloc`-zeroed arrays of
`maxIPs` `NULL` slots and are then seeded by the fixed list of calls. -/
def init_blocked_IP (v4ok v6ok : String → Bool) : BlockedIPState :=
  initCalls.foldl (fun st c => (add_blocked_IP v4ok v6ok st c.1 c.2).2)
    { v4 := List.replicate maxIPs none, v6 := List.replicate maxIPs none }

/-- Invariant of a registry array: the non-`NULL` slots form a contiguous
block at the front (every slot after the first `NULL` slot is `NULL`). -/
def packedFront : List (Option String) → Bool
  | [] => true
  | none :: rest => rest.all Option.isNone
  | some _ :: rest => packedFront rest

/- ------------------------------------------------------------------ -/
/- Storage-engine capability: return codes and statement runtime      -/
/- ------------------------------------------------------------------ -/

/-- The SQLite return codes the gravity code distinguishes. -/
inductive SqliteRC
  | ok
  | row
  | done
  | busy
  | error
  | misuse
deriving DecidableEq

/-- Runtime state of one prepared statement, as far as the lookup
discipline observes it: the currently bound parameter (if any) and
whether a step is pending a reset. -/
structure StmtState where
  bound : Option String
  needsReset : Bool
deriving DecidableEq

/-- Outcomes the storage engine produces for one bind/step cycle of a
prepared statement: result of `sqlite3_bind_text`, result of
`sqlite3_step`, and the value of column 0 when the step yields a row. -/
structure StmtExec where
  bindRC : SqliteRC
  stepRC : SqliteRC
  rowValue : Int
deriving DecidableEq

/-- `domain_in_list` (gravity-db.c lines 618-685).  `dbAvailable` models
the entry guard `gravityDB_opened || gravityDB_open()` (the open side
effect is applied by the caller-level wrapper `runLookup` below); the
storage outcomes are supplied by `exec`.  Returns the C result together
with the statement runtime state left behind:
bind failure returns false at once; a busy step and any other non-row
step reset the statement and clear the bindings and return false; a row
yields the 0/1 existence flag, again after reset and clear. -/
def domain_in_list (domain : String) (dbAvailable : Bool) (exec : StmtExec)
    (ss : StmtState) : Bool × StmtState :=
  if !dbAvailable then (false, ss)
  else if exec.bindRC != SqliteRC.ok then (false, ss)
  else if exec.stepRC == SqliteRC.busy then
    (false, { bound := none, needsReset := false })
  else if exec.stepRC != SqliteRC.row then
    (false, { bound := none, needsReset := false })
  else
    (exec.rowValue == 1, { bound := none, needsReset := false })

/- ------------------------------------------------------------------ -/
/- Gravity database content (the external list database)              -/
/- ------------------------------------------------------------------ -/

/-- One row of the `client` table.  The `subnet_match` SQL function is a
storage capability; each record carries it as the predicate telling
which client IP strings its subnet matches. -/
structure ClientRecord where
  id : Nat
  subnetMatch : String → Bool

/-- One row of a regex view: row identifier, domain pattern, group. -/
structure RegexRow where
  id : Nat
  domain : String
  group_id : Nat

/-- Logical content of the gravity database, per the fixed schema
contract: the three exact views (rows of domain and group), the two
regex views, the audit table, the client/group tables and the `info`
key `gravity_count` (`none` when the row is absent). -/
structure GravityDB where
  vw_gravity : List (String × Nat)
  vw_blacklist : List (String × Nat)
  vw_whitelist : List (String × Nat)
  vw_regex_blacklist : List RegexRow
  vw_regex_whitelist : List RegexRow
  domain_audit : List String
  clientTable : List ClientRecord
  clientByGroup : List (Nat × Nat)
  infoGravityCount : Option Int

/-- `SELECT EXISTS(SELECT domain from T WHERE domain = ? AND group_id IN (G))`
over the rows of one exact view: the query built by `get_client_querystr`. -/
def existsInView (rows : List (String × Nat)) (groups : List Nat) (domain : String) : Bool :=
  rows.any (fun r => r.1 == domain && groups.contains r.2)

/-- Two-argument SQLite `substr(X, Y)` with the documented negative-index
semantics of the storage engine: a negative `Y` counts from the right,
and a start position past the left edge is clamped to the beginning. -/
def sqliteSubstr (x : String) (y : Int) : String :=
  if y < 0 then
    let p1 : Int := y + x.length
    if p1 < 0 then x else x.drop p1.toNat
  else if y > 0 then x.drop (y - 1).toNat
  else x

/-- The `matcher` expression of the audit query prepared in
`gravityDB_open` (lines 140-148): when the stored pattern starts with
the wildcard, the input is cropped to the trailing portion of the
length of the pattern (minus the star) and the star is prepended;
otherwise the input is compared directly. -/
def auditMatcher (pattern input : String) : String :=
  if pattern.take 1 = "*" then
    "*" ++ sqliteSubstr input (-(pattern.length : Int) + 1)
  else input

/-- `SELECT EXISTS(... FROM domain_audit WHERE matcher = domain)`. -/
def auditExists (patterns : List String) (input : String) : Bool :=
  patterns.any (fun p => auditMatcher p input == p)

/- ------------------------------------------------------------------ -/
/- Process state of gravity-db.c                                       -/
/- ------------------------------------------------------------------ -/

/-- A cached prepared statement: either one of the three per-client
exact-list queries (recording the view it scans and the group set it
was built for) or the shared audit query. -/
inductive PreparedStmt
  | listQuery (table : String) (groups : List Nat)
  | auditQuery
deriving DecidableEq

/-- Resolve a view name used by the per-client statements to its rows. -/
def viewOf (db : GravityDB) : String → List (String × Nat)
  | "vw_gravity" => db.vw_gravity
  | "vw_blacklist" => db.vw_blacklist
  | "vw_whitelist" => db.vw_whitelist
  | _ => []

/-- Nominal evaluation of a cached statement against the database. -/
def evalStmt (db : GravityDB) : PreparedStmt → String → Bool
  | .listQuery t g, dom => existsInView (viewOf db t) g dom
  | .auditQuery, dom => auditExists db.domain_audit dom

/-- The file-level static state of `gravity-db.c`: the recorded process
identities, the `gravityDB_opened` flag, the connection (`connGen`
records the pid that opened it, `none` when `gravity_db == NULL`), the
three per-client statement vectors (`none` when the vector pointer
itself is `NULL`), the shared audit and table statements, and a count
of `sqlite3_finalize` calls issued so far (to observe whether handles
are finalized or merely dropped). -/
structure FTLState where
  mainProcess : Nat
  thisProcess : Nat
  opened : Bool
  connGen : Option Nat
  whitelistVec : Option (List (Option PreparedStmt))
  blacklistVec : Option (List (Option PreparedStmt))
  gravityVec : Option (List (Option PreparedStmt))
  auditStmt : Option PreparedStmt
  tableStmt : Option Nat
  finalizeEvents : Nat
deriving DecidableEq

/-- State of the process before any gravity call. -/
def initState : FTLState :=
  { mainProcess := 0, thisProcess := 0, opened := false, connGen := none,
    whitelistVec := none, blacklistVec := none, gravityVec := none,
    auditStmt := none, tableStmt := none, finalizeEvents := 0 }

/-- The process environment consumed by the core: the current OS pid,
the database content behind `FTLfiles.gravity_db` (`none` when the file
is absent or unopenable), `counters->clients`, and the regex capability
`match_regex(domain, clientID, REGEX_WHITELIST) != -1`. -/
structure Env where
  curPid : Nat
  db : Option GravityDB
  numClients : Nat
  regexWhitelistMatch : String → Nat → Bool

/-- `gravityDB_open` (lines 82-184): fails when the database file is
absent; is a no-op when already connected; otherwise connects, prepares
the audit statement, and creates any statement vector whose pointer is
still `NULL`, sized to `counters->clients`.  Nominal run: the pragma,
prepare and busy-timeout calls succeed whenever the file exists. -/
def gravityDB_open (env : Env) (st : FTLState) : Bool × FTLState :=
  match env.db with
  | none => (false, st)
  | some _ =>
    if st.opened && st.connGen.isSome then (true, st)
    else
      (true, { st with
        opened := true,
        connGen := some env.curPid,
        auditStmt := some PreparedStmt.auditQuery,
        whitelistVec := some (st.whitelistVec.getD (List.replicate env.numClients none)),
        blacklistVec := some (st.blacklistVec.getD (List.replicate env.numClients none)),
        gravityVec := some (st.gravityVec.getD (List.replicate env.numClients none)) })

/-- The guard `gravityDB_opened || gravityDB_open()` used at the entry of
`domain_in_list`, `get_client_groupids`, `gravityDB_prepare_client_statements`,
`gravityDB_getTable` and `gravityDB_count`. -/
def ensureOpen (env : Env) (st : FTLState) : Bool × FTLState :=
  if st.opened then (true, st) else gravityDB_open env st

/-- `gravityDB_check_fork` (lines 47-79): memorize the pid on the first
call; on a pid change, drop the connection and the three statement
vectors without finalizing anything (they belong to the pre-fork
address space) and re-open. -/
def gravityDB_check_fork (env : Env) (st : FTLState) : FTLState :=
  let st1 := if st.mainProcess = 0 then
               { st with mainProcess := env.curPid, thisProcess := env.curPid }
             else st
  if st1.thisProcess = env.curPid then st1
  else
    (gravityDB_open env { st1 with
       thisProcess := env.curPid, opened := false, connGen := none,
       whitelistVec := none, blacklistVec := none, gravityVec := none }).2

/-- Finalize events contributed by one statement vector when the store
is closed: one per non-`NULL` handle of a known client. -/
def vecFinalizeCount (v : Option (List (Option PreparedStmt))) (n : Nat) : Nat :=
  ((v.getD []).take n).countP Option.isSome

/-- `gravityDB_close` (lines 424-452): no-op when not open; otherwise
finalize every outstanding per-client statement and the audit
statement, free and `NULL` the vectors, and close the connection. -/
def gravityDB_close (env : Env) (st : FTLState) : FTLState :=
  if !st.opened then st
  else
    { st with
      opened := false, connGen := none,
      whitelistVec := none, blacklistVec := none, gravityVec := none,
      auditStmt := none,
      finalizeEvents := st.finalizeEvents
        + vecFinalizeCount st.whitelistVec env.numClients
        + vecFinalizeCount st.blacklistVec env.numClients
        + vecFinalizeCount st.gravityVec env.numClients
        + (if st.auditStmt.isSome then 1 else 0) }

/-- `get_client_groupids` (lines 203-329), nominal run against an
available database: when no `client` row subnet-matches the IP the
count query yields zero and the special group list `0` is returned
early; otherwise the groups associated with the first matching row are
collected (the empty list when the client has no associations). -/
def get_client_groupids (db : GravityDB) (ip : String) : List Nat :=
  match db.clientTable.find? (fun r => r.subnetMatch ip) with
  | none => [0]
  | some r => (db.clientByGroup.filter (fun p => p.1 == r.id)).map (fun p => p.2)

/-- Vector `set` of the growable statement vectors: pad with `NULL`
slots up to the index, then store (growing preserves existing entries). -/
def vecSet (v : List (Option PreparedStmt)) (i : Nat) (s : PreparedStmt) :
    List (Option PreparedStmt) :=
  (v ++ List.replicate (i + 1 - v.length) none).set i (some s)

/-- `gravityDB_prepare_client_statements` (lines 332-401): needs the
store open, resolves the client groups, and prepares the whitelist,
gravity and blacklist statements for this client from
`get_client_querystr`.  Nominal run: the three prepares succeed
whenever the database is present. -/
def gravityDB_prepare_client_statements (env : Env) (st : FTLState)
    (clientID : Nat) (ip : String) : Bool × FTLState :=
  let a := ensureOpen env st
  if !a.1 then (false, a.2)
  else
    match env.db with
    | none => (false, a.2)
    | some db =>
      let groups := get_client_groupids db ip
      (true, { a.2 with
        whitelistVec := some (vecSet (a.2.whitelistVec.getD []) clientID
          (PreparedStmt.listQuery "vw_whitelist" groups)),
        gravityVec := some (vecSet (a.2.gravityVec.getD []) clientID
          (PreparedStmt.listQuery "vw_gravity" groups)),
        blacklistVec := some (vecSet (a.2.blacklistVec.getD []) clientID
          (PreparedStmt.listQuery "vw_blacklist" groups)) })

/-- Storage outcomes of a nominal bind/step cycle: the bind succeeds and
the step yields the `SELECT EXISTS` row whenever a statement handle and
the database are present; a `NULL` handle makes the bind fail. -/
def nominalExec (odb : Option GravityDB) (stmt : Option PreparedStmt)
    (dom : String) : StmtExec :=
  match odb, stmt with
  | some db, some s =>
    { bindRC := SqliteRC.ok, stepRC := SqliteRC.row,
      rowValue := if evalStmt db s dom then 1 else 0 }
  | _, _ => { bindRC := SqliteRC.misuse, stepRC := SqliteRC.error, rowValue := 0 }

/-- One `domain_in_list` call as issued by the membership predicates:
the availability guard (with its open side effect) followed by the
bind/step cycle on a fresh statement runtime state. -/
def runLookup (env : Env) (st : FTLState) (stmt : Option PreparedStmt)
    (dom : String) : Bool × FTLState :=
  ((domain_in_list dom (ensureOpen env st).1 (nominalExec env.db stmt dom)
      { bound := none, needsReset := false }).1,
   (ensureOpen env st).2)

/-- Body of `in_whitelist` (lines 687-717) after the fork check.  A
`NULL` statement-vector pointer makes the very first access
`whitelist_stmt->get(whitelist_stmt, clientID)` dereference `NULL`:
that is the `none` result (process crash).  Otherwise: fetch the cached
statement, lazily prepare when missing (returning false on failure),
re-fetch after preparation, and combine the exact lookup with the regex
subsystem under short-circuit evaluation.  The middle component of the
result records whether the regex subsystem was consulted. -/
def in_whitelist_after_check (dom : String) (clientID : Nat) (ip : String)
    (env : Env) (st : FTLState) : Option (Bool × Bool × FTLState) :=
  match st.whitelistVec with
  | none => none
  | some vec =>
    match vec.getD clientID none with
    | some s =>
      let r := runLookup env st (some s) dom
      some (r.1 || env.regexWhitelistMatch dom clientID, !r.1, r.2)
    | none =>
      match gravityDB_prepare_client_statements env st clientID ip with
      | (false, st1) => some (false, false, st1)
      | (true, st1) =>
        let s2 := (st1.whitelistVec.getD []).getD clientID none
        let r := runLookup env st1 s2 dom
        some (r.1 || env.regexWhitelistMatch dom clientID, !r.1, r.2)

/-- `in_whitelist`: fork check, then the body above. -/
def in_whitelist (dom : String) (clientID : Nat) (ip : String)
    (env : Env) (st : FTLState) : Option (Bool × Bool × FTLState) :=
  in_whitelist_after_check dom clientID ip env (gravityDB_check_fork env st)

/-- Body of `in_gravity` (lines 719-742) after the fork check.  The
statement is fetched from the gravity vector, but when it was missing
and has just been prepared, the source re-fetches it from
`whitelist_stmt` instead of `gravity_stmt` (line 738) -- reproduced
faithfully here. -/
def in_gravity_after_check (dom : String) (clientID : Nat) (ip : String)
    (env : Env) (st : FTLState) : Option (Bool × FTLState) :=
  match st.gravityVec with
  | none => none
  | some vec =>
    match vec.getD clientID none with
    | some s => some (runLookup env st (some s) dom)
    | none =>
      match gravityDB_prepare_client_statements env st clientID ip with
      | (false, st1) => some (false, st1)
      | (true, st1) =>
        let s2 := (st1.whitelistVec.getD []).getD clientID none
        some (runLookup env st1 s2 dom)

/-- `in_gravity`: fork check, then the body above. -/
def in_gravity (dom : String) (clientID : Nat) (ip : String)
    (env : Env) (st : FTLState) : Option (Bool × FTLState) :=
  in_gravity_after_check dom clientID ip env (gravityDB_check_fork env st)

/-- Body of `in_blacklist` (lines 744-767) after the fork check; like
`in_gravity` it re-fetches the freshly prepared statement from
`whitelist_stmt` (line 763). -/
def in_blacklist_after_check (dom : String) (clientID : Nat) (ip : String)
    (env : Env) (st : FTLState) : Option (Bool × FTLState) :=
  match st.blacklistVec with
  | none => none
  | some vec =>
    match vec.getD clientID none with
    | some s => some (runLookup env st (some s) dom)
    | none =>
      match gravityDB_prepare_client_statements env st clientID ip with
      | (false, st1) => some (false, st1)
      | (true, st1) =>
        let s2 := (st1.whitelistVec.getD []).getD clientID none
        some (runLookup env st1 s2 dom)

/-- `in_blacklist`: fork check, then the body above. -/
def in_blacklist (dom : String) (clientID : Nat) (ip : String)
    (env : Env) (st : FTLState) : Option (Bool × FTLState) :=
  in_blacklist_after_check dom clientID ip env (gravityDB_check_fork env st)

/-- Body of `in_auditlist` (lines 769-781) after the fork check: false
when the audit statement is not ready, otherwise a `domain_in_list`
call on the shared audit statement. -/
def in_auditlist_after_check (dom : String) (env : Env) (st : FTLState) :
    Bool × FTLState :=
  match st.auditStmt with
  | none => (false, st)
  | some s => runLookup env st (some s) dom

/-- `in_auditlist`: fork check, then the body above. -/
def in_auditlist (dom : String) (env : Env) (st : FTLState) : Bool × FTLState :=
  in_auditlist_after_check dom env (gravityDB_check_fork env st)

/-- `tablename[]` (line 41) as an index-to-rows map for the
`COUNT(DISTINCT domain)` scans: the domains of each view. -/
def tableDomains (db : GravityDB) : Nat → List String
  | 0 => db.vw_gravity.map (fun r => r.1)
  | 1 => db.vw_blacklist.map (fun r => r.1)
  | 2 => db.vw_whitelist.map (fun r => r.1)
  | 3 => db.vw_regex_blacklist.map (fun r => r.domain)
  | 4 => db.vw_regex_whitelist.map (fun r => r.domain)
  | _ => []

/-- `SELECT COUNT(DISTINCT domain) FROM <table>`. -/
def countDistinctDomains (rows : List String) : Int :=
  rows.dedup.length

/-- Modelled from the spec: the distinguished failure sentinel returned
by `count`.  Its numeric value comes from a header that is not among
the sources; the spec only requires a sentinel distinguishable from any
true count (counts are nonnegative), so it is fixed here as `-2`, the
value FTL uses. -/
def DB_FAILED : Int := -2

/-- `gravityDB_finalizeTable` (lines 536-544): no-op when the store is
not open, otherwise finalize the shared table statement. -/
def gravityDB_finalizeTable (st : FTLState) : FTLState :=
  if !st.opened then st
  else
    { st with
      tableStmt := none,
      finalizeEvents := st.finalizeEvents + (if st.tableStmt.isSome then 1 else 0) }

/-- `gravityDB_count` (lines 549-616).  Note the source performs no fork
check here, and an unknown list index is answered with `return false`
(the integer 0), not `DB_FAILED`.  Nominal run: prepare and step
succeed whenever the database is present; for the gravity class the
step yields a row exactly when the `gravity_count` info row exists. -/
def gravityDB_count (env : Env) (st : FTLState) (list : Nat) : Int × FTLState :=
  let a := ensureOpen env st
  if !a.1 then (DB_FAILED, a.2)
  else if 5 ≤ list then (0, a.2)
  else
    match env.db with
    | none => (DB_FAILED, gravityDB_close env a.2)
    | some db =>
      if list ≠ 0 then
        (countDistinctDomains (tableDomains db list),
         gravityDB_finalizeTable { a.2 with tableStmt := some list })
      else
        match db.infoGravityCount with
        | some v => (v, gravityDB_finalizeTable { a.2 with tableStmt := some 0 })
        | none =>
          (DB_FAILED,
           gravityDB_close env (gravityDB_finalizeTable { a.2 with tableStmt := some 0 }))

/-- Body of `gravityDB_getTable` (lines 456-497) after the fork check:
needs the store open, rejects unknown list indices, and prepares the
iteration statement (closing the store when the prepare fails, which in
the nominal run only happens when the database has vanished). -/
def gravityDB_getTable_after_check (env : Env) (st : FTLState) (list : Nat) :
    Bool × FTLState :=
  let a := ensureOpen env st
  if !a.1 then (false, a.2)
  else if 5 ≤ list then (false, a.2)
  else
    match env.db with
    | none => (false, gravityDB_close env a.2)
    | some _ => (true, { a.2 with tableStmt := some list })

/-- `gravityDB_getTable`: fork check, then the body above. -/
def gravityDB_getTable (env : Env) (st : FTLState) (list : Nat) : Bool × FTLState :=
  gravityDB_getTable_after_check env (gravityDB_check_fork env st) list

/-- The row identifiers returned by
`SELECT id from <table> WHERE group_id IN (<groups>)` over a regex view. -/
def regexIdsInGroups (rows : List RegexRow) (groups : List Nat) : List Nat :=
  rows.filterMap (fun r => if groups.contains r.group_id then some r.id else none)

/-- The per-client regex indices enabled by the row loop of
`gravityDB_get_regex_client_groups` (lines 815-833): for each returned
row identifier, the first candidate position holding it is enabled,
offset past the blacklist regex count for whitelist-type entries. -/
def enabledRegexIndices (regexid : List Nat) (isWhitelist : Bool)
    (numRegexBlacklist : Nat) (rowIds : List Nat) : List Nat :=
  rowIds.filterMap (fun r =>
    (regexid.findIdx? (fun x => x == r)).map
      (fun i => if isWhitelist then i + numRegexBlacklist else i))

/-- Resolve a regex view name to its rows (`table` argument of
`gravityDB_get_regex_client_groups`). -/
def regexViewOf (db : GravityDB) : String → List RegexRow
  | "vw_regex_blacklist" => db.vw_regex_blacklist
  | "vw_regex_whitelist" => db.vw_regex_whitelist
  | _ => []

/-- `get_client_groupids` at the state level, with its availability
guard (lines 209-214): fails with no group set when the database is
unavailable. -/
def get_client_groupids_st (env : Env) (st : FTLState) (ip : String) :
    Option (List Nat) × FTLState :=
  let a := ensureOpen env st
  if !a.1 then (none, a.2)
  else
    match env.db with
    | none => (none, a.2)
    | some db => (some (get_client_groupids db ip), a.2)

/-- Body of `gravityDB_get_regex_client_groups` (lines 783-843) after
the fork check: resolve the client groups, query the regex rows scoped
to them, and report the per-client regex indices that get enabled. -/
def gravityDB_get_regex_client_groups_after_check (env : Env) (st : FTLState)
    (ip : String) (regexid : List Nat) (isWhitelist : Bool)
    (numRegexBlacklist : Nat) (table : String) :
    Bool × List Nat × FTLState :=
  match get_client_groupids_st env st ip with
  | (none, st1) => (false, [], st1)
  | (some groups, st1) =>
    match env.db with
    | none => (false, [], gravityDB_close env st1)
    | some db =>
      (true,
       enabledRegexIndices regexid isWhitelist numRegexBlacklist
         (regexIdsInGroups (regexViewOf db table) groups),
       st1)

/-- `gravityDB_get_regex_client_groups`: fork check, then the body above. -/
def gravityDB_get_regex_client_groups (env : Env) (st : FTLState)
    (ip : String) (regexid : List Nat) (isWhitelist : Bool)
    (numRegexBlacklist : Nat) (table : String) :
    Bool × List Nat × FTLState :=
  gravityDB_get_regex_client_groups_after_check env
    (gravityDB_check_fork env st) ip regexid isWhitelist numRegexBlacklist table

/- ------------------------------------------------------------------ -/
/- Concrete fixtures                                                   -/
/- ------------------------------------------------------------------ -/

/-- Validation capability accepting every address (all seeded addresses
are valid literals for their family). -/
def acceptAll : String → Bool := fun _ => true

/-- The registries right after `init_blocked_IP`. -/
def seededRegistries : BlockedIPState := init_blocked_IP acceptAll acceptAll

/-- A database holding one gravity domain and one blacklist domain in
the default group, an empty whitelist, and no client configuration. -/
def dbOne : GravityDB :=
  { vw_gravity := [("ads.example.com", 0)],
    vw_blacklist := [("bad.example.com", 0)],
    vw_whitelist := [],
    vw_regex_blacklist := [], vw_regex_whitelist := [],
    domain_audit := [], clientTable := [], clientByGroup := [],
    infoGravityCount := some 1 }

/-- Environment for `dbOne`: pid 1, one known client, no regex matches. -/
def envOne : Env :=
  { curPid := 1, db := some dbOne, numClients := 1,
    regexWhitelistMatch := fun _ _ => false }

/-- State after the first successful `gravityDB_open`. -/
def stOpen : FTLState := (gravityDB_open envOne initState).2

/-- State after the first `in_gravity` call for client 0 (which also
lazily prepared the client statements). -/
def stAfterFirstGravity : FTLState :=
  ((in_gravity "ads.example.com" 0 "10.0.0.9" envOne stOpen).getD (false, initState)).2

/-- State with the statements of client 0 prepared. -/
def stPrepared : FTLState :=
  (gravityDB_prepare_client_statements envOne stOpen 0 "10.0.0.9").2

/-- State after `gravityDB_close` has finalized and freed everything. -/
def stClosed : FTLState := gravityDB_close envOne stPrepared

/-- A forked situation: the statements were prepared by pid 1, but the
current process is pid 2. -/
def stForked : FTLState := { stPrepared with mainProcess := 1, thisProcess := 1 }

/-- The environment seen by the forked worker. -/
def envForked : Env := { envOne with curPid := 2 }

/-- An environment whose audit table holds the given patterns. -/
def auditEnv (pats : List String) : Env :=
  { curPid := 1, numClients := 1, regexWhitelistMatch := fun _ _ => false,
    db := some { vw_gravity := [], vw_blacklist := [], vw_whitelist := [],
                 vw_regex_blacklist := [], vw_regex_whitelist := [],
                 domain_audit := pats, clientTable := [], clientByGroup := [],
                 infoGravityCount := none } }

/-- The opened state for an audit fixture. -/
def auditSt (pats : List String) : FTLState :=
  (gravityDB_open (auditEnv pats) initState).2

/-- A database with a configured client: the `client` row with id 7
matches exactly the IP `10.0.0.7` by subnet, and the only
`client_by_group` row belongs to a different client (id 9), so client
10.0.0.7 has zero group associations. -/
def dbWithClient : GravityDB :=
  { vw_gravity := [("g.example.com", 0)], vw_blacklist := [("b.example.com", 0)],
    vw_whitelist := [("w.example.com", 0)],
    vw_regex_blacklist := [], vw_regex_whitelist := [],
    domain_audit := [],
    clientTable := [{ id := 7, subnetMatch := fun s => s == "10.0.0.7" }],
    clientByGroup := [(9, 3)],
    infoGravityCount := none }

/-- Environment for `dbWithClient`. -/
def envWithClient : Env :=
  { curPid := 1, db := some dbWithClient, numClients := 1,
    regexWhitelistMatch := fun _ _ => false }

/-- A state whose per-client statements for client 0 are already
prepared for the default group. -/
def stWithClientStmts : FTLState :=
  { mainProcess := 1, thisProcess := 1, opened := true, connGen := some 1,
    whitelistVec := some [some (PreparedStmt.listQuery "vw_whitelist" [0])],
    blacklistVec := some [some (PreparedStmt.listQuery "vw_blacklist" [0])],
    gravityVec := some [some (PreparedStmt.listQuery "vw_gravity" [0])],
    auditStmt := some PreparedStmt.auditQuery, tableStmt := none, finalizeEvents := 0 }

/- ------------------------------------------------------------------ -/
/- Claim theorems                                                      -/
/- ------------------------------------------------------------------ -/

/-- Claim C1 (code bug).  On the very first `in_gravity` and
`in_blacklist` call for a client, when the statements are lazily
prepared inside the call, the source re-fetches the statement from the
whitelist vector (lines 738 and 763), so the lookup runs against the
whitelist instead of the gravity respectively blacklist statement:
with a domain present in `vw_gravity` (resp. `vw_blacklist`) for the
client group and an empty whitelist, the first call answers `false`
although the freshly prepared own-class statement answers `true`, and
the second call (which reads the cached own-class statement) answers
`true`. -/
theorem c1_first_call_consults_whitelist_statement :
    (in_gravity "ads.example.com" 0 "10.0.0.9" envOne stOpen).map Prod.fst
      = some false ∧
    (in_blacklist "bad.example.com" 0 "10.0.0.9" envOne stOpen).map Prod.fst
      = some false ∧
    (in_gravity "ads.example.com" 0 "10.0.0.9" envOne stAfterFirstGravity).map Prod.fst
      = some true ∧
    stAfterFirstGravity.gravityVec
      = some [some (PreparedStmt.listQuery "vw_gravity" [0])] ∧
    evalStmt dbOne (PreparedStmt.listQuery "vw_gravity" [0]) "ads.example.com" = true ∧
    evalStmt dbOne (PreparedStmt.listQuery "vw_blacklist" [0]) "bad.example.com" = true := by
  decide

/-- Claim C2 (code bug).  Immediately after initialization the IPv6
registry does contain `::` and `::ffff:146.112.61.104`, and the scan
loop run on the IPv6 registry would find them, but `is_blocked_IP`
answers `false` for every IPv6 query because `case 6` of its switch
falls through into `default`; the IPv4 side behaves as claimed. -/
theorem c2_ipv6_sentinel_lookup_always_false :
    is_blocked_IP seededRegistries (some "::") 6 = false ∧
    is_blocked_IP seededRegistries (some "::ffff:146.112.61.104") 6 = false ∧
    seededRegistries.v6.contains (some "::") = true ∧
    seededRegistries.v6.contains (some "::ffff:146.112.61.104") = true ∧
    scan_registry "::" seededRegistries.v6 = true ∧
    scan_registry "::ffff:146.112.61.104" seededRegistries.v6 = true ∧
    is_blocked_IP seededRegistries (some "0.0.0.0") 4 = true ∧
    is_blocked_IP seededRegistries (some "::ffff:146.112.61.104") 4 = false := by
  decide

/-- Claim C5 (code bug).  With the database open, `gravityDB_count`
answers the unknown list class 5 (`UNKNOWN_TABLE`) with `return false`,
i.e. the integer 0 -- not the `DB_FAILED` sentinel its own leading
comment promises for every error; 0 is indistinguishable from the count
of an empty list.  The known classes behave as claimed (metadata read
for gravity, live distinct count for the blacklist view). -/
theorem c5_unknown_list_class_returns_zero_not_sentinel :
    (gravityDB_count envOne stOpen 5).1 = 0 ∧
    (0 : Int) ≠ DB_FAILED ∧
    (gravityDB_count envOne stOpen 0).1 = 1 ∧
    (gravityDB_count envOne stOpen 1).1 = 1 := by
  decide

/-- Claim C6 (code bug).  After `gravityDB_close` has freed the
statement vectors and set the vector pointers to `NULL`, a call of
`in_whitelist`, `in_gravity` or `in_blacklist` in the same process
dereferences the `NULL` vector pointer in
`whitelist_stmt->get(whitelist_stmt, clientID)` (and its siblings)
before any availability check can intervene -- the crash the result
`none` stands for -- instead of returning the fail-safe `false`; only
`in_auditlist` degrades gracefully. -/
theorem c6_membership_predicates_crash_after_close :
    in_whitelist "x.example.com" 0 "10.0.0.9" envOne stClosed = none ∧
    in_gravity "x.example.com" 0 "10.0.0.9" envOne stClosed = none ∧
    in_blacklist "x.example.com" 0 "10.0.0.9" envOne stClosed = none ∧
    (in_auditlist "x.example.com" envOne stClosed).1 = false := by
  decide

/-- Claim C9 (confirmed).  The audit query implements the three-form
wildcard policy on the documented examples: pattern `*.google.de`
matches `mail.google.de` but not `google.de` itself; the literal
pattern `google.de` does not match `abcgoogle.de`; pattern `*google.de`
matches `abcgoogle.de`. -/
theorem c9_audit_wildcard_examples :
    (in_auditlist "mail.google.de" (auditEnv ["*.google.de"])
      (auditSt ["*.google.de"])).1 = true ∧
    (in_auditlist "google.de" (auditEnv ["*.google.de"])
      (auditSt ["*.google.de"])).1 = false ∧
    (in_auditlist "abcgoogle.de" (auditEnv ["google.de"])
      (auditSt ["google.de"])).1 = false ∧
    (in_auditlist "abcgoogle.de" (auditEnv ["*google.de"])
      (auditSt ["*google.de"])).1 = true := by
  decide

/- ------------------------------------------------------------------ -/
/- Helper lemmas                                                       -/
/- ------------------------------------------------------------------ -/

theorem existsInView_nil_groups (rows : List (String × Nat)) (d : String) :
    existsInView rows [] d = false := by
  simp [existsInView]

theorem empty_groups_lookup_false (env : Env) (st : FTLState) (t d : String) :
    (runLookup env st (some (PreparedStmt.listQuery t [])) d).1 = false := by
  unfold runLookup
  cases henv : env.db with
  | none => simp [nominalExec, domain_in_list]
  | some db =>
    simp [nominalExec, domain_in_list, evalStmt, existsInView_nil_groups]

theorem ensureOpen_of_db (env : Env) (st : FTLState) (db : GravityDB)
    (h : env.db = some db) : (ensureOpen env st).1 = true := by
  unfold ensureOpen gravityDB_open
  split
  · rfl
  · rw [h]; simp only []; split <;> rfl

theorem ite_one_zero_beq_one (b : Bool) : ((if b then (1 : Int) else 0) == 1) = b := by
  cases b <;> decide

theorem runLookup_eval (env : Env) (st : FTLState) (s : PreparedStmt)
    (dom : String) (db : GravityDB) (h : env.db = some db) :
    (runLookup env st (some s) dom).1 = evalStmt db s dom := by
  unfold runLookup
  rw [ensureOpen_of_db env st db h, h]
  simp [nominalExec, domain_in_list, ite_one_zero_beq_one]

theorem vecSet_getD (v : List (Option PreparedStmt)) (i : Nat) (s : PreparedStmt) :
    (vecSet v i s).getD i none = some s := by
  unfold vecSet
  have hlen : i < (v ++ List.replicate (i + 1 - v.length) none).length := by
    simp [List.length_append, List.length_replicate]
    omega
  rw [List.getD, List.get?_eq_getElem?, List.getElem?_set_eq_of_lt (some s) hlen]
  rfl

theorem prepare_of_db (env : Env) (st : FTLState) (clientID : Nat) (ip : String)
    (db : GravityDB) (hdb : env.db = some db) :
    gravityDB_prepare_client_statements env st clientID ip =
      (true, { (ensureOpen env st).2 with
        whitelistVec := some (vecSet ((ensureOpen env st).2.whitelistVec.getD []) clientID
          (PreparedStmt.listQuery "vw_whitelist" (get_client_groupids db ip))),
        gravityVec := some (vecSet ((ensureOpen env st).2.gravityVec.getD []) clientID
          (PreparedStmt.listQuery "vw_gravity" (get_client_groupids db ip))),
        blacklistVec := some (vecSet ((ensureOpen env st).2.blacklistVec.getD []) clientID
          (PreparedStmt.listQuery "vw_blacklist" (get_client_groupids db ip))) }) := by
  simp [gravityDB_prepare_client_statements, ensureOpen_of_db env st db hdb, hdb]

theorem viewOf_whitelist (db : GravityDB) : viewOf db "vw_whitelist" = db.vw_whitelist := rfl

theorem evalStmt_listQuery (db : GravityDB) (t : String) (g : List Nat) (dom : String) :
    evalStmt db (PreparedStmt.listQuery t g) dom = existsInView (viewOf db t) g dom := rfl

theorem gravityDB_open_preserves (env : Env) (st : FTLState) :
    (gravityDB_open env st).2.mainProcess = st.mainProcess ∧
    (gravityDB_open env st).2.thisProcess = st.thisProcess ∧
    (gravityDB_open env st).2.finalizeEvents = st.finalizeEvents := by
  unfold gravityDB_open
  cases env.db
  · simp
  · simp only []
    split <;> simp

theorem check_fork_pids (env : Env) (st : FTLState) :
    (gravityDB_check_fork env st).thisProcess = env.curPid ∧
    (gravityDB_check_fork env st).mainProcess =
      (if st.mainProcess = 0 then env.curPid else st.mainProcess) := by
  unfold gravityDB_check_fork
  by_cases h0 : st.mainProcess = 0
  · simp [h0]
  · simp only [h0, if_false]
    by_cases h1 : st.thisProcess = env.curPid
    · simp [h1]
    · simp only [h1, if_false]
      obtain ⟨hm, ht, _⟩ := gravityDB_open_preserves env { st with
          thisProcess := env.curPid, opened := false, connGen := none,
          whitelistVec := none, blacklistVec := none, gravityVec := none }
      constructor
      · rw [ht]
      · rw [hm]

theorem check_fork_idem (env : Env) (st : FTLState) :
    gravityDB_check_fork env (gravityDB_check_fork env st) = gravityDB_check_fork env st := by
  obtain ⟨h1, h2⟩ := check_fork_pids env st
  generalize hg : gravityDB_check_fork env st = r at h1 h2 ⊢
  unfold gravityDB_check_fork
  by_cases h0 : r.mainProcess = 0
  · have hm : r.mainProcess = env.curPid := by
      by_cases hs : st.mainProcess = 0
      · rw [h2, if_pos hs]
      · rw [h2, if_neg hs] at h0; exact absurd h0 hs
    simp only [h0, if_true]
    cases r
    simp_all
  · simp only [h0, if_false]
    rw [if_pos h1]

theorem all_none_packed (l : List (Option String)) :
    l.all Option.isNone = true → packedFront l = true := by
  induction l with
  | nil => intro _; rfl
  | cons h t ih =>
    intro hall
    rw [List.all_cons, Bool.and_eq_true] at hall
    cases h with
    | none => simpa [packedFront] using hall.2
    | some a => simp at hall

theorem fill_first (addr : String) (reg reg' : List (Option String))
    (h : fillFirstEmpty addr reg = some reg') :
    reg.findIdx Option.isNone < reg.length ∧
    reg' = reg.set (reg.findIdx Option.isNone) (some addr) := by
  induction reg generalizing reg' with
  | nil => simp [fillFirstEmpty] at h
  | cons hd t ih =>
    cases hd with
    | none =>
      simp [fillFirstEmpty] at h
      subst h
      simp [List.findIdx_cons]
    | some a =>
      simp only [fillFirstEmpty, Option.map_eq_some'] at h
      obtain ⟨l', hl', rfl⟩ := h
      obtain ⟨h1, h2⟩ := ih l' hl'
      constructor
      · simpa [List.findIdx_cons] using Nat.succ_lt_succ h1
      · simp [List.findIdx_cons, h2]

theorem fill_packed (addr : String) (reg : List (Option String)) :
    ∀ reg', packedFront reg = true → fillFirstEmpty addr reg = some reg' →
      packedFront reg' = true := by
  induction reg with
  | nil => intro reg' _ h; simp [fillFirstEmpty] at h
  | cons hd t ih =>
    intro reg' hp h
    cases hd with
    | none =>
      simp [fillFirstEmpty] at h
      subst h
      exact all_none_packed t (by simpa [packedFront] using hp)
    | some a =>
      simp only [fillFirstEmpty, Option.map_eq_some'] at h
      obtain ⟨l', hl', rfl⟩ := h
      exact ih l' (by simpa [packedFront] using hp) hl'

theorem scan_mem (addr : String) (reg : List (Option String))
    (hp : packedFront reg = true) :
    (scan_registry addr reg = true ↔ (some addr) ∈ reg) := by
  induction reg with
  | nil => simp [scan_registry]
  | cons hd t ih =>
    cases hd with
    | none =>
      have hall : t.all Option.isNone = true := by simpa [packedFront] using hp
      simp only [scan_registry, List.mem_cons]
      constructor
      · intro h; exact absurd h (by simp)
      · rintro (h | h)
        · exact absurd h (by simp)
        · have := List.all_eq_true.mp hall _ h
          simp at this
    | some a =>
      have hp' : packedFront t = true := by simpa [packedFront] using hp
      simp only [scan_registry, List.mem_cons, Bool.or_eq_true, beq_iff_eq,
        Option.some.injEq, ih hp']
      constructor
      · rintro (h | h)
        · exact Or.inl h.symm
        · exact Or.inr h
      · rintro (h | h)
        · exact Or.inl h.symm
        · exact Or.inr h

theorem add4_fills (v4ok v6ok : String → Bool) (st : BlockedIPState)
    (addr : String) (st' : BlockedIPState)
    (h : add_blocked_IP v4ok v6ok st addr 4 = (true, st')) :
    fillFirstEmpty addr st.v4 = some st'.v4 ∧ st'.v6 = st.v6 := by
  cases hv : v4ok addr with
  | false => simp [add_blocked_IP, hv] at h
  | true =>
    cases hf : fillFirstEmpty addr st.v4 with
    | none => simp [add_blocked_IP, hv, hf] at h
    | some l =>
      have heq : add_blocked_IP v4ok v6ok st addr 4 = (true, { st with v4 := l }) := by
        simp [add_blocked_IP, hv, hf]
      rw [heq] at h
      injection h with h1 h2
      subst h2
      exact ⟨rfl, rfl⟩

theorem add6_fills (v4ok v6ok : String → Bool) (st : BlockedIPState)
    (addr : String) (st' : BlockedIPState)
    (h : add_blocked_IP v4ok v6ok st addr 6 = (true, st')) :
    fillFirstEmpty addr st.v6 = some st'.v6 ∧ st'.v4 = st.v4 := by
  cases hv : v6ok addr with
  | false => simp [add_blocked_IP, hv] at h
  | true =>
    cases hf : fillFirstEmpty addr st.v6 with
    | none => simp [add_blocked_IP, hv, hf] at h
    | some l =>
      have heq : add_blocked_IP v4ok v6ok st addr 6 = (true, { st with v6 := l }) := by
        simp [add_blocked_IP, hv, hf]
      rw [heq] at h
      injection h with h1 h2
      subst h2
      exact ⟨rfl, rfl⟩

/-- Claim C3 (corrected).  Each of the membership predicates, the table
iteration entry, and the regex group binding entry runs the fork check
first: pre-applying `gravityDB_check_fork` to the state does not change
their behaviour (the check is idempotent and is the first thing they
execute).  And on a process-identity change the check drops the
inherited connection and statement vectors -- it proceeds exactly as a
re-open from a state whose connection and vectors were discarded -- and
issues no finalize call for them.  `gravityDB_count`, however, performs
no fork check (see the counterexample). -/
theorem c3_fork_check_at_entry_points_and_drops_handles :
    (∀ (env : Env) (st : FTLState) (dom : String) (clientID : Nat) (ip : String),
       in_whitelist dom clientID ip env st
         = in_whitelist dom clientID ip env (gravityDB_check_fork env st)) ∧
    (∀ (env : Env) (st : FTLState) (dom : String) (clientID : Nat) (ip : String),
       in_gravity dom clientID ip env st
         = in_gravity dom clientID ip env (gravityDB_check_fork env st)) ∧
    (∀ (env : Env) (st : FTLState) (dom : String) (clientID : Nat) (ip : String),
       in_blacklist dom clientID ip env st
         = in_blacklist dom clientID ip env (gravityDB_check_fork env st)) ∧
    (∀ (env : Env) (st : FTLState) (dom : String),
       in_auditlist dom env st = in_auditlist dom env (gravityDB_check_fork env st)) ∧
    (∀ (env : Env) (st : FTLState) (list : Nat),
       gravityDB_getTable env st list
         = gravityDB_getTable env (gravityDB_check_fork env st) list) ∧
    (∀ (env : Env) (st : FTLState) (ip : String) (regexid : List Nat)
       (isWL : Bool) (nBL : Nat) (table : String),
       gravityDB_get_regex_client_groups env st ip regexid isWL nBL table
         = gravityDB_get_regex_client_groups env (gravityDB_check_fork env st)
             ip regexid isWL nBL table) ∧
    (∀ (env : Env) (st : FTLState), st.mainProcess ≠ 0 → st.thisProcess ≠ env.curPid →
       gravityDB_check_fork env st
         = (gravityDB_open env { st with
             thisProcess := env.curPid, opened := false, connGen := none,
             whitelistVec := none, blacklistVec := none, gravityVec := none }).2 ∧
       (gravityDB_check_fork env st).finalizeEvents = st.finalizeEvents) := by
  refine ⟨?_, ?_, ?_, ?_, ?_, ?_, ?_⟩
  · intro env st dom clientID ip
    simp only [in_whitelist, check_fork_idem]
  · intro env st dom clientID ip
    simp only [in_gravity, check_fork_idem]
  · intro env st dom clientID ip
    simp only [in_blacklist, check_fork_idem]
  · intro env st dom
    simp only [in_auditlist, check_fork_idem]
  · intro env st list
    simp only [gravityDB_getTable, check_fork_idem]
  · intro env st ip regexid isWL nBL table
    simp only [gravityDB_get_regex_client_groups, check_fork_idem]
  · intro env st hmain hthis
    have hbody : gravityDB_check_fork env st
        = (gravityDB_open env { st with
            thisProcess := env.curPid, opened := false, connGen := none,
            whitelistVec := none, blacklistVec := none, gravityVec := none }).2 := by
      unfold gravityDB_check_fork
      simp only [if_neg hmain, if_neg hthis]
    refine ⟨hbody, ?_⟩
    rw [hbody]
    exact (gravityDB_open_preserves env _).2.2

/-- Claim C3, counterexample to the claim as stated: `gravityDB_count`
does not run the fork check.  In a forked situation (statements were
prepared by pid 1, current pid is 2) a `count` call leaves the recorded
process identity and the inherited pre-fork connection untouched, and
its behaviour differs from what it would be had the check run first. -/
theorem c3_count_skips_fork_check :
    (gravityDB_count envForked stForked 1).2.thisProcess = 1 ∧
    (gravityDB_count envForked stForked 1).2.connGen = some 1 ∧
    envForked.curPid = 2 ∧
    stForked.thisProcess = 1 ∧
    gravityDB_count envForked stForked 1
      ≠ gravityDB_count envForked (gravityDB_check_fork envForked stForked) 1 := by
  decide

/-- Claim C3, witness: the drop-without-finalize clause applied to the
concrete forked state. -/
theorem c3_fork_drop_witness :
    gravityDB_check_fork envForked stForked
      = (gravityDB_open envForked { stForked with
          thisProcess := envForked.curPid, opened := false, connGen := none,
          whitelistVec := none, blacklistVec := none, gravityVec := none }).2 ∧
    (gravityDB_check_fork envForked stForked).finalizeEvents
      = stForked.finalizeEvents :=
  c3_fork_check_at_entry_points_and_drops_handles.2.2.2.2.2.2
    envForked stForked (by decide) (by decide)

/-- Claim C4 (corrected).  Whenever the bind succeeds, every path of
`domain_in_list` resets the statement and clears its bindings before
returning: the busy path and every other non-row path answer false, and
a row yields the 0/1 existence flag.  A failed bind, however, returns
false immediately, leaving the statement runtime state untouched -- no
reset, no clearing (no parameter was newly bound on that path, and
since every successful-bind path clears the bindings, no bound state
reaches the next lookup). -/
theorem c4_lookup_discipline_amended (dom : String) (exec : StmtExec) (ss : StmtState)
    (hbind : exec.bindRC = SqliteRC.ok) :
    ((domain_in_list dom true exec ss).2 = { bound := none, needsReset := false }) ∧
    (exec.stepRC = SqliteRC.busy → (domain_in_list dom true exec ss).1 = false) ∧
    (exec.stepRC ≠ SqliteRC.busy → exec.stepRC ≠ SqliteRC.row →
       (domain_in_list dom true exec ss).1 = false) ∧
    (exec.stepRC = SqliteRC.row →
       (domain_in_list dom true exec ss).1 = (exec.rowValue == 1)) ∧
    (∀ exec2 : StmtExec, exec2.bindRC ≠ SqliteRC.ok →
       domain_in_list dom true exec2 ss = (false, ss)) := by
  unfold domain_in_list
  refine ⟨?_, ?_, ?_, ?_, ?_⟩
  · simp [hbind]
    split
    · simp
    · split <;> simp
  · intro h; simp [hbind, h]
  · intro h1 h2; simp [hbind, h1, h2]
  · intro h; simp [hbind, h]
  · intro exec2 h
    simp [h]

/-- Claim C4, counterexample to the claim as stated: on a failed bind,
`domain_in_list` returns without resetting the statement or clearing
its bindings -- the statement runtime state it leaves behind is exactly
the one it received, not the cleared state. -/
theorem c4_failed_bind_skips_reset_and_clear :
    (domain_in_list "x.example.com" true
       { bindRC := SqliteRC.error, stepRC := SqliteRC.row, rowValue := 1 }
       { bound := some "stale.example.com", needsReset := true })
      = (false, { bound := some "stale.example.com", needsReset := true }) ∧
    ({ bound := some "stale.example.com", needsReset := true } : StmtState)
      ≠ { bound := none, needsReset := false } := by
  decide

/-- Claim C4, witness: the discipline applied to a concrete busy cycle. -/
theorem c4_lookup_discipline_witness :
    (domain_in_list "w.example.com" true
      { bindRC := SqliteRC.ok, stepRC := SqliteRC.busy, rowValue := 0 }
      { bound := none, needsReset := false }).2
      = { bound := none, needsReset := false } ∧
    (domain_in_list "w.example.com" true
      { bindRC := SqliteRC.ok, stepRC := SqliteRC.busy, rowValue := 0 }
      { bound := none, needsReset := false }).1 = false :=
  ⟨(c4_lookup_discipline_amended "w.example.com" _ _ rfl).1,
   (c4_lookup_discipline_amended "w.example.com" _ _ rfl).2.1 rfl⟩

/-- Claim C7 (confirmed).  Whenever the database is present and (after
the fork check) the whitelist statement vector exists, `in_whitelist`
returns exactly (exact whitelist membership for the statement group
scope) OR (whitelist regex match for this client) -- on the cached
statement path with the groups the statement was prepared for, and on
the lazy-preparation path with the freshly resolved client groups.  The
middle component of the result records whether the regex subsystem was
consulted: it is the negation of the exact-match outcome, hence the
regex subsystem is never consulted when the exact lookup matched. -/
theorem c7_whitelist_exact_or_regex (env : Env) (st : FTLState) (db : GravityDB)
    (dom ip : String) (clientID : Nat) (vec : List (Option PreparedStmt))
    (hdb : env.db = some db)
    (hvec : (gravityDB_check_fork env st).whitelistVec = some vec) :
    (∀ g, vec.getD clientID none = some (PreparedStmt.listQuery "vw_whitelist" g) →
       ∃ st', in_whitelist dom clientID ip env st =
         some (existsInView db.vw_whitelist g dom || env.regexWhitelistMatch dom clientID,
               !existsInView db.vw_whitelist g dom, st')) ∧
    (vec.getD clientID none = none →
       ∃ st', in_whitelist dom clientID ip env st =
         some (existsInView db.vw_whitelist (get_client_groupids db ip) dom
                 || env.regexWhitelistMatch dom clientID,
               !existsInView db.vw_whitelist (get_client_groupids db ip) dom, st')) := by
  have he : ∀ (st0 : FTLState) (s : PreparedStmt),
      (runLookup env st0 (some s) dom).1 = evalStmt db s dom :=
    fun st0 s => runLookup_eval env st0 s dom db hdb
  constructor
  · intro g hg
    simp only [in_whitelist, in_whitelist_after_check, hvec, hg, he,
      evalStmt_listQuery, viewOf_whitelist]
    exact ⟨_, rfl⟩
  · intro hg
    have hprep := prepare_of_db env (gravityDB_check_fork env st) clientID ip db hdb
    simp only [in_whitelist, in_whitelist_after_check, hvec, hg, hprep,
      Option.getD_some, vecSet_getD, he, evalStmt_listQuery, viewOf_whitelist]
    exact ⟨_, rfl⟩

/-- Claim C7, witness: with the whitelist statement of client 0 cached
and `w.example.com` in `vw_whitelist` for group 0, `in_whitelist`
answers true and the regex subsystem is not consulted. -/
theorem c7_whitelist_witness :
    ∃ st', in_whitelist "w.example.com" 0 "10.0.0.7" envWithClient stWithClientStmts
      = some (true, false, st') := by
  obtain ⟨st', h⟩ := (c7_whitelist_exact_or_regex envWithClient stWithClientStmts
      dbWithClient "w.example.com" "10.0.0.7" 0
      [some (PreparedStmt.listQuery "vw_whitelist" [0])] rfl rfl).1 [0] rfl
  exact ⟨st', by rw [h]; simp [existsInView, dbWithClient, envWithClient]⟩

/-- Claim C8 (confirmed).  A client whose IP matches no `client` row
resolves to exactly the group list containing only 0; a client matching
a row with zero `client_by_group` associations resolves to the empty
group list, and the exact-list lookup primitive on a statement scoped
to the empty group set answers false in every state and for every
database and domain. -/
theorem c8_group_resolution (db : GravityDB) (ip : String) :
    (db.clientTable.find? (fun r => r.subnetMatch ip) = none →
       get_client_groupids db ip = [0]) ∧
    (∀ rec : ClientRecord, db.clientTable.find? (fun r => r.subnetMatch ip) = some rec →
       db.clientByGroup.filter (fun p => p.1 == rec.id) = [] →
       get_client_groupids db ip = [] ∧
       (∀ (env : Env) (st : FTLState) (t dom : String),
          (runLookup env st (some (PreparedStmt.listQuery t [])) dom).1 = false)) := by
  constructor
  · intro h
    unfold get_client_groupids
    rw [h]
  · intro rec h hf
    constructor
    · unfold get_client_groupids
      rw [h]
      simp only [hf, List.map_nil]
    · intro env st t dom
      exact empty_groups_lookup_false env st t dom

/-- Claim C8, witness: in `dbWithClient`, the unconfigured IP 10.0.0.8
resolves to the global group, the configured but group-less IP 10.0.0.7
resolves to the empty set, and an empty-scope blacklist lookup answers
false for a domain that is on the blacklist. -/
theorem c8_group_resolution_witness :
    get_client_groupids dbWithClient "10.0.0.8" = [0] ∧
    get_client_groupids dbWithClient "10.0.0.7" = [] ∧
    (runLookup envOne stOpen (some (PreparedStmt.listQuery "vw_blacklist" []))
       "bad.example.com").1 = false :=
  ⟨(c8_group_resolution dbWithClient "10.0.0.8").1 rfl,
   ((c8_group_resolution dbWithClient "10.0.0.7").2
      { id := 7, subnetMatch := fun s => s == "10.0.0.7" } rfl rfl).1,
   ((c8_group_resolution dbWithClient "10.0.0.7").2
      { id := 7, subnetMatch := fun s => s == "10.0.0.7" } rfl rfl).2
     envOne stOpen "vw_blacklist" "bad.example.com"⟩

/-- Claim C10 (confirmed).  The zeroed 12-slot registry is packed at the
front; a successful fill stores the address exactly at the first empty
slot and preserves packedness; a successful `add_blocked_IP` for family
4 (resp. 6) is exactly such a fill of that family registry, leaving the
other untouched; and on a packed registry the scan that stops at the
first empty slot finds an address if and only if some slot holds it --
so it examines every address ever successfully registered. -/
theorem c10_registry_packed_invariant :
    packedFront (List.replicate maxIPs none) = true ∧
    (∀ (addr : String) (reg reg' : List (Option String)),
       fillFirstEmpty addr reg = some reg' →
       reg.findIdx Option.isNone < reg.length ∧
       reg' = reg.set (reg.findIdx Option.isNone) (some addr) ∧
       (packedFront reg = true → packedFront reg' = true)) ∧
    (∀ (v4ok v6ok : String → Bool) (st : BlockedIPState) (addr : String)
       (st' : BlockedIPState),
       add_blocked_IP v4ok v6ok st addr 4 = (true, st') →
       fillFirstEmpty addr st.v4 = some st'.v4 ∧ st'.v6 = st.v6) ∧
    (∀ (v4ok v6ok : String → Bool) (st : BlockedIPState) (addr : String)
       (st' : BlockedIPState),
       add_blocked_IP v4ok v6ok st addr 6 = (true, st') →
       fillFirstEmpty addr st.v6 = some st'.v6 ∧ st'.v4 = st.v4) ∧
    (∀ (addr : String) (reg : List (Option String)), packedFront reg = true →
       (scan_registry addr reg = true ↔ (some addr) ∈ reg)) := by
  refine ⟨by decide, ?_, add4_fills, add6_fills, scan_mem⟩
  intro addr reg reg' h
  obtain ⟨h1, h2⟩ := fill_first addr reg reg' h
  exact ⟨h1, h2, fun hp => fill_packed addr reg reg' hp h⟩

/-- Claim C10, witness: filling a registry with one occupied and one
empty slot keeps it packed; the seeded IPv6 registry is packed, so its
scan is equivalent to membership; and a 13th-free-slot fill through
`add_blocked_IP` agrees with the direct fill of the v4 registry. -/
theorem c10_registry_witness :
    (packedFront [some "0.0.0.0", some "1.2.3.4"] = true) ∧
    (scan_registry "::" seededRegistries.v6 = true ↔ (some "::") ∈ seededRegistries.v6) ∧
    (fillFirstEmpty "1.2.3.4" seededRegistries.v4
       = some (add_blocked_IP acceptAll acceptAll seededRegistries "1.2.3.4" 4).2.v4) :=
  ⟨(c10_registry_packed_invariant.2.1 "1.2.3.4" [some "0.0.0.0", none]
      [some "0.0.0.0", some "1.2.3.4"] (by decide)).2.2 (by decide),
   c10_registry_packed_invariant.2.2.2.2 "::" seededRegistries.v6 (by decide),
   (c10_registry_packed_invariant.2.2.1 acceptAll acceptAll seededRegistries "1.2.3.4"
      (add_blocked_IP acceptAll acceptAll seededRegistries "1.2.3.4" 4).2 (by decide)).1⟩
